import Mathlib

/-
Verification of the label-validation pipeline of regulate.ai.

The development shallowly embeds the pipeline activities
(src/temporal/activities/fdaValidation.js, which bundles the FDA
validation activity, the OCR activity and the AI validation activity,
src/temporal/workflows/labelValidation.js, the activity barrel in
src/temporal/clients/connection.js, and the FDA MCP server in
src/unnamed/part_002) as executable Lean functions.

Modelling conventions:
- JavaScript numbers are modelled as rationals.
- JavaScript values crossing JSON boundaries are modelled by the
  inductive type JsValue, with an explicit undef constructor for the
  undefined value; reading an absent property yields none.
- Effectful external calls (the OCR engine, the two language-model
  providers, the regulatory subprocess) are parameters of the embedded
  functions: each function takes the outcome of its external call as an
  argument, so the functions stay pure and total.
- A JavaScript function that can throw is embedded with result type
  Except String _; a promise that may never settle is embedded with the
  PromiseOutcome type, whose pending constructor records that the
  promise never resolves nor rejects.
- Wall-clock fields (processingTime, validatedAt, timestamp and the
  like) are omitted from the embedded records: no claim refers to them.
-/

/-! ## Character and list utilities (ASCII fragment of the JS string ops) -/

def lbraceC : Char := Char.ofNat 123

def rbraceC : Char := Char.ofNat 125

def lbrackC : Char := Char.ofNat 91

def rbrackC : Char := Char.ofNat 93

/-- Whitespace recognised by the modelled trim and by the JSON parser. -/
def isWsChar (c : Char) : Bool := c = ' ' ∨ c = '\n' ∨ c = '\t' ∨ c = '\r'

def skipWs : List Char → List Char
  | [] => []
  | c :: t => if isWsChar c then skipWs t else c :: t

/-- Model of the JavaScript String.prototype.trim (ASCII whitespace). -/
def trimChars (s : List Char) : List Char :=
  ((skipWs s).reverse.dropWhile (fun c => isWsChar c)).reverse

def jsTrim (s : String) : String := String.mk (trimChars s.data)

/-- Lower-casing of ASCII letters, the fragment of toLowerCase the
modelled inputs exercise. -/
def toLowerChar (c : Char) : Char :=
  if 65 ≤ c.toNat ∧ c.toNat ≤ 90 then Char.ofNat (c.toNat + 32) else c

def toLowerChars (s : List Char) : List Char := s.map toLowerChar

def jsToLowerCase (s : String) : String := String.mk (toLowerChars s.data)

/-- Does pat occur as a contiguous substring of s (String.prototype.includes)? -/
def containsSub (pat : List Char) : List Char → Bool
  | [] => pat.isEmpty
  | c :: t => pat.isPrefixOf (c :: t) || containsSub pat t

def jsIncludes (s pat : String) : Bool := containsSub pat.data s.data

/-- The suffix of s after the last newline: equivalent to
lines[lines.length - 1] for lines = s.split(newline). -/
def lastLineOf (s : List Char) : List Char :=
  ((s.reverse.takeWhile (fun c => c ≠ '\n'))).reverse

/-- The suffix of s strictly after the first occurrence of pat, when pat
occurs in s. -/
def afterFirst (pat : List Char) : List Char → Option (List Char)
  | [] => if pat.isEmpty then some [] else none
  | c :: t =>
    if pat.isPrefixOf (c :: t) then some ((c :: t).drop pat.length)
    else afterFirst pat t

/-- The prefix of s strictly before the first occurrence of pat, when pat
occurs in s. -/
def beforeFirst (pat : List Char) : List Char → Option (List Char)
  | [] => if pat.isEmpty then some [] else none
  | c :: t =>
    if pat.isPrefixOf (c :: t) then some []
    else (beforeFirst pat t).map (fun p => c :: p)

/-! ## JavaScript values -/

mutual

/-- JavaScript values as seen across the JSON boundaries of the
pipeline.  undef models the undefined value (never produced by JSON
parsing, but produced by reading absent properties).  Arrays and objects
carry their own list-shaped types so that equality stays decidable. -/
inductive JsValue where
  | undef
  | null
  | bool (b : Bool)
  | num (q : ℚ)
  | str (s : String)
  | arr (elems : JsArr)
  | obj (fields : JsObj)
deriving DecidableEq

inductive JsArr where
  | nil
  | cons (head : JsValue) (tail : JsArr)
deriving DecidableEq

inductive JsObj where
  | nil
  | cons (key : String) (val : JsValue) (tail : JsObj)
deriving DecidableEq

end

def JsArr.ofList : List JsValue → JsArr
  | [] => .nil
  | v :: t => .cons v (JsArr.ofList t)

def JsArr.toList : JsArr → List JsValue
  | .nil => []
  | .cons v t => v :: t.toList

def JsObj.ofList : List (String × JsValue) → JsObj
  | [] => .nil
  | kv :: t => .cons kv.1 kv.2 (JsObj.ofList t)

def JsObj.toList : JsObj → List (String × JsValue)
  | .nil => []
  | .cons k v t => (k, v) :: t.toList

/-- Object construction from a key-value list, in insertion order. -/
def jsObjOf (kvs : List (String × JsValue)) : JsValue := .obj (JsObj.ofList kvs)

/-- Array construction from an element list. -/
def jsArrOf (vs : List JsValue) : JsValue := .arr (JsArr.ofList vs)

/-- Property read on a JavaScript value: absent property or non-object
base yields none (undefined).  A duplicated key keeps the last binding,
matching the semantics of object literals and spreads used to build
these objects. -/
def jsGet (v : JsValue) (k : String) : Option JsValue :=
  match v with
  | .obj kvs => ((kvs.toList.reverse).find? (fun p => p.1 = k)).map (fun p => p.2)
  | _ => none

/-- JavaScript truthiness of a value. -/
def jsTruthyV : JsValue → Bool
  | .undef => false
  | .null => false
  | .bool b => b
  | .num q => q ≠ 0
  | .str s => s ≠ ""
  | .arr _ => true
  | .obj _ => true

/-- Truthiness of a possibly-absent property (undefined is falsy). -/
def jsTruthy (o : Option JsValue) : Bool :=
  match o with
  | none => false
  | some v => jsTruthyV v

/-! ## Rendering (template-literal interpolation and JSON.stringify) -/

def digitChar (n : Nat) : Char := Char.ofNat (48 + n)

def natDigitsAux : Nat → Nat → List Char
  | 0, _ => []
  | Nat.succ fuel, n =>
    if n < 10 then [digitChar n]
    else natDigitsAux fuel (n / 10) ++ [digitChar (n % 10)]

def natRender (n : Nat) : List Char := natDigitsAux (n + 1) n

def intRender (i : Int) : List Char :=
  if i < 0 then '-' :: natRender i.natAbs else natRender i.natAbs

/-- Smallest k ≤ fuel such that den divides 10 ^ k. -/
def decExpAux (den : Nat) : Nat → Nat → Option Nat
  | 0, _ => none
  | Nat.succ fuel, k =>
    if 10 ^ k % den = 0 then some k else decExpAux den fuel (k + 1)

/-- Decimal rendering of a rational, matching how JavaScript prints the
numbers the modelled code produces (integers, and short terminating
decimals).  Non-terminating decimals are not produced by the modelled
code paths; they fall back to an integer rendering of the numerator. -/
def numRender (q : ℚ) : List Char :=
  if q.den = 1 then intRender q.num
  else
    match decExpAux q.den 21 0 with
    | some k =>
      let scaled := q.num.natAbs * (10 ^ k / q.den)
      let ds := natRender scaled
      let ds := if ds.length ≤ k then List.replicate (k + 1 - ds.length) '0' ++ ds else ds
      let ip := ds.take (ds.length - k)
      let fp := ds.drop (ds.length - k)
      (if q.num < 0 then ['-'] else []) ++ ip ++ '.' :: fp
    | none => intRender q.num

/-- Template-literal interpolation of a JavaScript value into a string. -/
def jsDisplayV : JsValue → String
  | .undef => "undefined"
  | .null => "null"
  | .bool b => if b then "true" else "false"
  | .num q => String.mk (numRender q)
  | .str s => s
  | .arr _ => ""
  | .obj _ => "[object Object]"

/-- Interpolation of a possibly-absent property value. -/
def jsDisplay (o : Option JsValue) : String :=
  match o with
  | none => "undefined"
  | some v => jsDisplayV v

def escChar (c : Char) : List Char :=
  if c = '"' then ['\\', '"']
  else if c = '\\' then ['\\', '\\']
  else if c = '\n' then ['\\', 'n']
  else if c = '\t' then ['\\', 't']
  else if c = '\r' then ['\\', 'r']
  else [c]

def escapeChars (s : List Char) : List Char :=
  s.foldr (fun c acc => escChar c ++ acc) []

mutual

/-- JSON.stringify on the values the modelled code serializes.  undef is
never serialized by the modelled paths (JSON.stringify drops undefined
properties); it is rendered as null here to keep the function total. -/
def stringifyV : JsValue → List Char
  | .undef => ('n' :: 'u' :: 'l' :: 'l' :: [])
  | .null => ('n' :: 'u' :: 'l' :: 'l' :: [])
  | .bool b => if b then ('t' :: 'r' :: 'u' :: 'e' :: []) else ('f' :: 'a' :: 'l' :: 's' :: 'e' :: [])
  | .num q => numRender q
  | .str s => '"' :: (escapeChars s.data ++ ['"'])
  | .arr es => lbrackC :: (stringifyElems es ++ [rbrackC])
  | .obj kvs => lbraceC :: (stringifyFields kvs ++ [rbraceC])

def stringifyElems : JsArr → List Char
  | .nil => []
  | .cons v .nil => stringifyV v
  | .cons v rest => stringifyV v ++ ',' :: stringifyElems rest

def stringifyFields : JsObj → List Char
  | .nil => []
  | .cons k v .nil => ('"' :: (escapeChars k.data ++ ['"', ':'])) ++ stringifyV v
  | .cons k v rest =>
    (('"' :: (escapeChars k.data ++ ['"', ':'])) ++ stringifyV v) ++ ',' :: stringifyFields rest

end

def jsonStringify (v : JsValue) : String := String.mk (stringifyV v)

/-! ## JSON parsing (model of JSON.parse) -/

/-- Parse the body of a JSON string after the opening quote, returning
the decoded characters and the rest after the closing quote.  The escape
sequences the modelled payloads use are supported; unsupported escapes
fail the parse. -/
def parseStringBody : List Char → Option (List Char × List Char)
  | [] => none
  | '\\' :: e :: t2 =>
    let esc : Option Char :=
      if e = '"' then some '"'
      else if e = '\\' then some '\\'
      else if e = '/' then some '/'
      else if e = 'n' then some '\n'
      else if e = 't' then some '\t'
      else if e = 'r' then some '\r'
      else if e = 'b' then some (Char.ofNat 8)
      else if e = 'f' then some (Char.ofNat 12)
      else none
    match esc with
    | none => none
    | some ch => (parseStringBody t2).map (fun p => (ch :: p.1, p.2))
  | ['\\'] => none
  | c :: t =>
    if c = '"' then some ([], t)
    else (parseStringBody t).map (fun p => (c :: p.1, p.2))

def takeDigits : List Char → (List Char × List Char)
  | [] => ([], [])
  | c :: t =>
    if c.isDigit then
      let p := takeDigits t
      (c :: p.1, p.2)
    else ([], c :: t)

def digitsToNat (ds : List Char) : Nat :=
  ds.foldl (fun a c => a * 10 + (c.toNat - 48)) 0

/-- Parse a JSON number (integer part, optional fraction, optional
exponent).  Leading-zero strictness of JSON is not enforced; the
modelled payloads contain no such numerals. -/
def parseNumberBody (s : List Char) : Option (ℚ × List Char) :=
  let (neg, s1) :=
    match s with
    | c :: t => if c = '-' then (true, t) else (false, s)
    | [] => (false, s)
  let (ip, s2) := takeDigits s1
  if ip.isEmpty then none
  else
    let (fp, s3) :=
      match s2 with
      | c :: t => if c = '.' then takeDigits t else ([], s2)
      | [] => ([], s2)
    let mant : ℚ := (digitsToNat (ip ++ fp) : ℚ) / ((10 : ℚ) ^ fp.length)
    let mant := if neg then -mant else mant
    match s3 with
    | c :: t =>
      if c = 'e' ∨ c = 'E' then
        let (esign, t2) :=
          match t with
          | d :: u => if d = '-' then ((-1 : Int), u) else if d = '+' then ((1 : Int), u) else ((1 : Int), t)
          | [] => ((1 : Int), t)
        let (eds, r) := takeDigits t2
        if eds.isEmpty then none
        else
          let e := digitsToNat eds
          let v := if esign < 0 then mant / ((10 : ℚ) ^ e) else mant * ((10 : ℚ) ^ e)
          some (v, r)
      else some (mant, s3)
    | [] => some (mant, s3)

mutual

def parseJ : Nat → List Char → Option (JsValue × List Char)
  | 0, _ => none
  | Nat.succ fuel, s =>
    match skipWs s with
    | [] => none
    | c :: t =>
      if c = '"' then (parseStringBody t).map (fun p => (JsValue.str (String.mk p.1), p.2))
      else if c = 't' then
        match t with
        | 'r' :: 'u' :: 'e' :: r => some (JsValue.bool true, r)
        | _ => none
      else if c = 'f' then
        match t with
        | 'a' :: 'l' :: 's' :: 'e' :: r => some (JsValue.bool false, r)
        | _ => none
      else if c = 'n' then
        match t with
        | 'u' :: 'l' :: 'l' :: r => some (JsValue.null, r)
        | _ => none
      else if c = lbraceC then parseObjBody fuel (skipWs t)
      else if c = lbrackC then parseArrBody fuel (skipWs t)
      else (parseNumberBody (c :: t)).map (fun p => (JsValue.num p.1, p.2))

def parseObjBody : Nat → List Char → Option (JsValue × List Char)
  | 0, _ => none
  | Nat.succ fuel, s =>
    match s with
    | [] => none
    | c :: t =>
      if c = rbraceC then some (jsObjOf [], t)
      else (parseMembers fuel (c :: t)).map (fun p => (jsObjOf p.1, p.2))

def parseMembers : Nat → List Char → Option (List (String × JsValue) × List Char)
  | 0, _ => none
  | Nat.succ fuel, s =>
    match skipWs s with
    | [] => none
    | c :: t =>
      if c = '"' then
        match parseStringBody t with
        | none => none
        | some (k, r1) =>
          match skipWs r1 with
          | [] => none
          | c2 :: t2 =>
            if c2 = ':' then
              match parseJ fuel t2 with
              | none => none
              | some (v, r2) =>
                match skipWs r2 with
                | [] => none
                | c3 :: t3 =>
                  if c3 = ',' then
                    (parseMembers fuel t3).map (fun p => ((String.mk k, v) :: p.1, p.2))
                  else if c3 = rbraceC then some ([(String.mk k, v)], t3)
                  else none
            else none
      else none

def parseArrBody : Nat → List Char → Option (JsValue × List Char)
  | 0, _ => none
  | Nat.succ fuel, s =>
    match s with
    | [] => none
    | c :: t =>
      if c = rbrackC then some (jsArrOf [], t)
      else (parseElems fuel (c :: t)).map (fun p => (jsArrOf p.1, p.2))

def parseElems : Nat → List Char → Option (List JsValue × List Char)
  | 0, _ => none
  | Nat.succ fuel, s =>
    match parseJ fuel s with
    | none => none
    | some (v, r) =>
      match skipWs r with
      | [] => none
      | c :: t =>
        if c = ',' then (parseElems fuel t).map (fun p => (v :: p.1, p.2))
        else if c = rbrackC then some ([v], t)
        else none

end

/-- Model of JSON.parse: parse one value and require only whitespace to
remain.  Returns none where JSON.parse throws a SyntaxError. -/
def jsonParse (s : String) : Option JsValue :=
  match parseJ (2 * s.data.length + 4) s.data with
  | some (v, r) => if (skipWs r).isEmpty then some v else none
  | none => none

/-! ## OCR activity (src/temporal/activities/ocr.js, bundled in
src/temporal/activities/fdaValidation.js) -/

/-- The input payload of performOCR.  The image reference fields are
kept as opaque strings: only their presence matters to the control
flow.  Fields of the payload not read by the modelled code are
omitted. -/
structure LabelData where
  filename : Option String := none
  imageUrl : Option String := none
  imagePath : Option String := none
  imageBuffer : Option String := none
deriving DecidableEq

/-- One word of the Tesseract result (bbox omitted: not read by any
modelled consumer). -/
structure TessWord where
  text : String
  confidence : ℚ
deriving DecidableEq

/-- The data field of a Tesseract.recognize result. -/
structure TessData where
  text : String
  confidence : ℚ
  words : List TessWord := []
  lines : List String := []
deriving DecidableEq

/-- The object performOCR returns.  Every field is optional because the
success and the failure paths of the source populate different subsets:
the success path (lines 457..491 of the OCR module) sets text,
confidence, words-derived counters and lines but no success flag, while
the catch path (lines 508..514) sets only success and error.  Reading a
field the path did not set yields undefined, modelled as none.
Omitted source fields (meanConfidence, words, processingTime, filename,
imageSource, averageWordConfidence, extractedAt, detectedSections) are
not read by any modelled consumer; in particular detectedSections is
destructured but never used by performAIValidation. -/
structure OCRResultJS where
  success : Option Bool := none
  error : Option String := none
  text : Option String := none
  confidence : Option ℚ := none
  totalWords : Option Nat := none
  lowConfidenceWords : Option Nat := none
  lines : List String := []
deriving DecidableEq

/-- Model of performOCR.  The outcome of the external engine call
(Tesseract.recognize) is a parameter: ok carries the recognized data,
error carries the message of the rejection.  The source catches every
throw (including the missing-image-source throw it raises itself) and
returns the failure-shaped object. -/
def performOCR (labelData : LabelData) (engine : Except String TessData) : OCRResultJS :=
  if labelData.imageUrl.isNone ∧ labelData.imagePath.isNone ∧ labelData.imageBuffer.isNone then
    { success := some false
      error := some ("No valid image source provided (imageUrl, imagePath, or imageBuffer)") }
  else
    match engine with
    | .error e => { success := some false, error := some e }
    | .ok d =>
      { text := some (jsTrim d.text)
        confidence := some (d.confidence / 100)
        totalWords := some d.words.length
        lowConfidenceWords := some ((d.words.filter (fun w => w.confidence < 60)).length)
        lines := ((d.lines.map jsTrim).filter (fun l => l.length > 0)) }

/-- The assessment object built by assessOCRQuality. -/
structure QualityAssessment where
  overall : String
  confidence : Option ℚ
  issues : List String
  recommendations : List String
deriving DecidableEq

/-- A JavaScript comparison a < b where a may be undefined: comparison
with undefined is a NaN comparison and yields false. -/
def jsLt (a : Option ℚ) (b : ℚ) : Bool :=
  match a with
  | some q => q < b
  | none => false

/-- Model of assessOCRQuality.  The source wraps the checks in
try/catch and re-throws from the catch, so the model returns
Except: the error case fires exactly when the body throws, which
happens at ocrResult.text.length when text is undefined (a
failure-shaped OCR result); every earlier check tolerates undefined
because JavaScript number comparisons with undefined are false. -/
def assessOCRQuality (ocrResult : OCRResultJS) : Except String QualityAssessment :=
  let conf := ocrResult.confidence
  let base : String × List String × List String :=
    if jsLt conf (7/10) then
      ("poor", ["Low overall confidence"], ["Consider image preprocessing or manual review"])
    else if jsLt conf (85/100) then
      ("fair", ["Moderate confidence"], ["Verify critical sections manually"])
    else ("good", [], [])
  let lowWordFlag : Bool :=
    match ocrResult.lowConfidenceWords, ocrResult.totalWords with
    | some l, some t => (l : ℚ) > (t : ℚ) * (2/10)
    | _, _ => false
  let issues := base.2.1 ++ (if lowWordFlag then ["High number of low confidence words"] else [])
  let recs := base.2.2 ++ (if lowWordFlag then ["Review text for accuracy"] else [])
  match ocrResult.text with
  | none => .error ("TypeError: Cannot read properties of undefined (reading length)")
  | some t =>
    let issues := issues ++ (if t.length < 50 then ["Very short text extracted"] else [])
    let recs := recs ++ (if t.length < 50 then ["Check if image contains readable text"] else [])
    .ok { overall := base.1, confidence := conf, issues := issues, recommendations := recs }

/-! ## AI validation activity (src/temporal/activities/aiValidation.js,
bundled in src/temporal/activities/fdaValidation.js) -/

/-- The fenced-code-block extraction of parseAIResponse: the capture of
the first occurrence of a json fence up to the first closing fence after
it (the lazy regex over the whole response). -/
def fencedJsonCapture (s : List Char) : Option (List Char) :=
  match afterFirst ("```json\n").data s with
  | none => none
  | some rest => beforeFirst ("\n```").data rest

/-- The brace-matching extraction of parseAIResponse: the greedy regex
match from the first opening brace to the last closing brace. -/
def braceCapture (s : List Char) : Option (List Char) :=
  let fromBrace := s.dropWhile (fun c => c ≠ lbraceC)
  match fromBrace with
  | [] => none
  | _ :: _ =>
    let upTo := (fromBrace.reverse.dropWhile (fun c => c ≠ rbraceC)).reverse
    match upTo with
    | [] => none
    | _ :: _ => some upTo

/-- An optional string as a JavaScript value (undefined when absent). -/
def jsOfOptStr (o : Option String) : JsValue :=
  match o with
  | none => .undef
  | some s => .str s

/-- The fallback stub parseAIResponse returns when JSON parsing fails,
with the source fields in source order. -/
def parseFailureStub (aiResponse : String) (fallbackText : Option String) : JsValue :=
  jsObjOf
    [ ("isValid", .bool false)
    , ("confidence", .num (4/10))
    , ("correctedText", jsOfOptStr fallbackText)
    , ("extractedInformation", jsObjOf [])
    , ("ocrIssuesFound", jsArrOf [.str ("Could not parse AI validation response")])
    , ("completenessScore", .num 4)
    , ("complianceIssues", jsArrOf [.str ("AI response parsing failed")])
    , ("recommendations", jsArrOf [.str ("Manual review recommended")])
    , ("qualityImprovement", .str ("None"))
    , ("rawAiResponse", .str (String.mk (aiResponse.data.take 500) ++ "...")) ]

/-- Model of parseAIResponse: try the fenced-code-block JSON capture,
then the brace-matching capture, then the whole body; on any JSON parse
failure return the fallback stub.  The source performs no validation of
the parsed value: whatever JSON.parse returns is handed back as is. -/
def parseAIResponse (aiResponse : String) (fallbackText : Option String) : JsValue :=
  let parsed : Option JsValue :=
    match fencedJsonCapture aiResponse.data with
    | some cap => jsonParse (String.mk cap)
    | none =>
      match braceCapture aiResponse.data with
      | some cap => jsonParse (String.mk cap)
      | none => jsonParse aiResponse
  match parsed with
  | some v => v
  | none => parseFailureStub aiResponse fallbackText

/-- The input payload of performAIValidation.  The fields the modelled
code reads are ocrText (possibly undefined when the OCR stage failed)
and the overall / confidence fields of the quality assessment.  imageUrl,
labelType and detectedSections are destructured but never used. -/
structure AIInput where
  ocrText : Option String := none
  ocrQualityOverall : String := "good"
  ocrQualityConfidence : Option ℚ := none
deriving DecidableEq

/-- An optional rational as a JavaScript value (undefined when absent). -/
def jsOfOptQ (o : Option ℚ) : JsValue :=
  match o with
  | none => .undef
  | some q => .num q

/-- The degraded stub built when both providers fail (confidence 0.3)
with the per-provider error messages. -/
def bothProvidersFailedStub (ocrText : Option String) (claudeErr openaiErr : String) : JsValue :=
  jsObjOf
    [ ("isValid", .bool false)
    , ("confidence", .num (3/10))
    , ("correctedText", jsOfOptStr ocrText)
    , ("extractedInformation", jsObjOf [])
    , ("ocrIssuesFound", jsArrOf [.str ("Both AI providers failed to process")])
    , ("completenessScore", .num 3)
    , ("complianceIssues", jsArrOf [.str ("AI validation unavailable")])
    , ("recommendations", jsArrOf [.str ("Manual review required")])
    , ("qualityImprovement", .str ("None"))
    , ("errors", jsObjOf [("claude", .str claudeErr), ("openai", .str openaiErr)]) ]

/-- The degraded stub built when the primary provider fails and the
secondary is not configured (confidence 0.4). -/
def claudeOnlyFailedStub (ocrText : Option String) (claudeErr : String) : JsValue :=
  jsObjOf
    [ ("isValid", .bool false)
    , ("confidence", .num (4/10))
    , ("correctedText", jsOfOptStr ocrText)
    , ("extractedInformation", jsObjOf [])
    , ("ocrIssuesFound", jsArrOf [.str ("Only Claude available, but failed to process")])
    , ("completenessScore", .num 4)
    , ("complianceIssues", jsArrOf [.str ("AI validation partially unavailable")])
    , ("recommendations", jsArrOf [.str ("Configure OpenAI as backup or manual review")])
    , ("qualityImprovement", .str ("None"))
    , ("errors", jsObjOf [("claude", .str claudeErr), ("openai", .str ("Not configured"))]) ]

/-- The fields of a spread {...v}: the fields of an object, nothing for
the primitive values the modelled paths can produce here. -/
def spreadFields : JsValue → List (String × JsValue)
  | .obj kvs => kvs.toList
  | _ => []

/-- Model of performAIValidation.  The outcomes of the two external
provider calls are parameters: primary is the Anthropic call (ok carries
the response text of content[0].text, error the thrown message);
openaiConfigured tells whether the OpenAI client was initialised;
secondary is the OpenAI call outcome, consulted only when the primary
fails and the secondary is configured.  The provider state machine of
the source (lines 759..834 of the AI module): primary success — parse
the response; primary throw — try secondary once if configured; parse
failure never triggers the secondary.  The final object spreads the
validation result and appends the metadata fields (the wall-clock
fields are omitted).  aiModel keeps the last attempted model name; no
aiProvider property is ever written. -/
def performAIValidation (data : AIInput) (primary : Except String String)
    (openaiConfigured : Bool) (secondary : Except String String) : JsValue :=
  let step : JsValue × String :=
    match primary with
    | .ok resp => (parseAIResponse resp data.ocrText, "claude-3-5-sonnet-20241022")
    | .error claudeErr =>
      if openaiConfigured then
        match secondary with
        | .ok resp => (parseAIResponse resp data.ocrText, "gpt-4o-mini")
        | .error openaiErr => (bothProvidersFailedStub data.ocrText claudeErr openaiErr, "gpt-4o-mini")
      else (claudeOnlyFailedStub data.ocrText claudeErr, "claude-3-5-sonnet-20241022")
  .obj (JsObj.ofList
    (spreadFields step.1 ++
      [ ("originalOcrText", jsOfOptStr data.ocrText)
      , ("aiModel", .str step.2)
      , ("inputQuality", .str data.ocrQualityOverall)
      , ("inputConfidence", jsOfOptQ data.ocrQualityConfidence) ]))

/-! ## Regulatory cross-check: subprocess protocol and FDA activities
(src/temporal/activities/fdaValidation.js) -/

/-- Outcome of a promise as observed by its awaiting caller.  pending
records a promise that never settles. -/
inductive PromiseOutcome (α : Type) where
  | pending
  | rejected (msg : String)
  | resolved (v : α)
deriving DecidableEq

/-- Behaviour of one spawned MCP subprocess: either it never emits a
close event, or it closes with an exit code after having written the
given stdout and stderr. -/
inductive SubprocessBehavior where
  | neverCloses
  | closes (exitCode : Int) (stdout : String) (stderr : String)
deriving DecidableEq

/-- Placeholder for the message of a JSON.parse SyntaxError; the
modelled code only propagates it inside larger messages and never
inspects it. -/
def jsonSyntaxErrorMsg : String := "Unexpected token in JSON"

/-- Model of callFDAMCPTool (lines 16..66).  The promise executor
registers handlers only for the close event of the child process; no
timer exists, so a subprocess that never closes leaves the promise
pending forever.  On close: a non-zero exit code rejects; otherwise the
last line of the trimmed stdout is parsed as JSON, resolving with the
parsed value or rejecting on a parse failure.  toolName and args only
shape the request written to the subprocess stdin and do not influence
the settled outcome. -/
def callFDAMCPTool (_toolName : String) (_args : JsValue) (proc : SubprocessBehavior) :
    PromiseOutcome JsValue :=
  match proc with
  | .neverCloses => .pending
  | .closes exitCode out err =>
    if exitCode ≠ 0 then
      .rejected ("MCP server exited with code " ++ String.mk (intRender exitCode) ++ ": " ++ err)
    else
      match jsonParse (String.mk (lastLineOf (trimChars out.data))) with
      | some v => .resolved v
      | none => .rejected ("Failed to parse MCP response: " ++ jsonSyntaxErrorMsg)

/-- A Finding as emitted by the validation stages.  The timestamp field
is omitted (wall clock).  ingredient and claim carry the raw JavaScript
values the source copies in; none stands for a field the emitting site
does not set. -/
structure Finding where
  type : String
  severity : String
  message : String
  source : String
  sourceTag : String
  ingredient : Option JsValue := none
  claim : Option JsValue := none
deriving DecidableEq

def serviceUnavailableFinding : Finding :=
  { type := "FDA_SERVICE_ERROR", severity := "WARNING"
    message := "FDA validation service temporarily unavailable - manual review recommended"
    source := "FDA MCP Server", sourceTag := "FDA-INGREDIENT" }

def noIngredientsFinding : Finding :=
  { type := "FDA_NO_INGREDIENTS", severity := "WARNING"
    message := "No ingredients detected - manual ingredient list review recommended"
    source := "FDA Ingredient Database", sourceTag := "FDA-INGREDIENT" }

/-- The findings processFDAResult (lines 126..182) pushes for one entry
of validationResults. -/
def ingredientFindings (item : JsValue) : List Finding × List Finding :=
  let ing := jsGet item "ingredient"
  let issues :=
    (if ¬ jsTruthy (jsGet item "fdaApproved") then
      [{ type := "FDA_INGREDIENT_NOT_APPROVED", severity := "WARNING"
         message := "Ingredient \"" ++ jsDisplay ing ++ "\" not found in FDA approved database"
         source := "FDA Food Data Central", sourceTag := "FDA-INGREDIENT"
         ingredient := ing : Finding }]
    else []) ++
    (match jsGet item "warnings" with
     | some (.arr ws) =>
       ws.toList.map (fun w =>
         { type := "FDA_INGREDIENT_WARNING", severity := "WARNING"
           message := jsDisplayV w
           source := "FDA Food Data Central", sourceTag := "FDA-INGREDIENT"
           ingredient := ing : Finding })
     | _ => [])
  let recs :=
    if ¬ jsTruthy (jsGet item "grasStatus") then
      [{ type := "FDA_GRAS_RECOMMENDATION", severity := "INFO"
         message := "Verify GRAS (Generally Recognized as Safe) status for \"" ++ jsDisplay ing ++ "\""
         source := "FDA MCP Server", sourceTag := "FDA-GRAS"
         ingredient := ing : Finding }]
    else []
  (issues, recs)

/-- Model of processFDAResult: the issue/recommendation lists built from
a parsed FDA validation payload.  A validationResults value that is not
an array contributes nothing (the modelled payloads always carry an
array or nothing). -/
def processFDAResult (parsedResult : JsValue) : List Finding × List Finding :=
  let perItem :=
    match jsGet parsedResult "validationResults" with
    | some (.arr items) => (items.toList.map ingredientFindings)
    | _ => []
  let issues := (perItem.map (fun p => p.1)).flatten
  let recs := (perItem.map (fun p => p.2)).flatten
  let summaryRecs :=
    match jsGet parsedResult "summary" with
    | some sv =>
      if jsTruthyV sv then
        [{ type := "FDA_VALIDATION_SUMMARY", severity := "INFO"
           message := "FDA validation completed: " ++ jsDisplay (jsGet sv "approved") ++ "/" ++
             jsDisplay (jsGet sv "totalIngredients") ++ " ingredients approved, " ++
             jsDisplay (jsGet sv "warnings") ++ " warnings found"
           source := "FDA MCP Server", sourceTag := "FDA-INGREDIENT" : Finding }]
      else []
    | none => []
  (issues, recs ++ summaryRecs)

/-- The payload of the ingredient-validation activity: the direct
ingredients list and the ingredients of the structured extraction, when
present.  Fields the modelled code does not read are omitted. -/
structure FdaIngredientsInput where
  ingredients : List String := []
  extractedInformationIngredients : Option (List String) := none
deriving DecidableEq

/-- The ingredient list the activity settles on (lines 81..84): the
structured extraction is consulted only when the direct list is empty
and the structured field is present (an empty array is truthy in
JavaScript, so an empty structured list is still selected). -/
def ingredientsToValidate (data : FdaIngredientsInput) : List String :=
  match data.ingredients, data.extractedInformationIngredients with
  | [], some l => l
  | ing, _ => ing

/-- The record validateIngredientsWithFDA resolves with (the
fdaValidation part of the returned object; summary counters and
wall-clock fields omitted). -/
structure FdaReturn where
  success : Bool
  error : Option String := none
  ingredientsValidated : Nat := 0
  issues : List Finding := []
  recommendations : List Finding := []
deriving DecidableEq

/-- The first element of the content array of an MCP result envelope,
when the guard of line 104 (result && result.content && content[0])
passes. -/
def mcpResultContentFirst (v : JsValue) : Option JsValue :=
  match jsGet v "result" with
  | some rv =>
    if jsTruthyV rv then
      match jsGet rv "content" with
      | some (.arr (.cons c0 _)) => if jsTruthyV c0 then some c0 else none
      | _ => none
    else none
  | none => none

/-- Model of validateIngredientsWithFDA (lines 71..263).  The first
component of the result is the trace of MCP tool invocations the run
performs (instrumentation: it records that the external capability was
invoked); the second is the outcome of the returned promise.  The
subprocess is always called, whatever the ingredient list; a rejection
of the call is caught and replaced by the service-unavailable WARNING
issue; a content text that fails JSON.parse is caught and ignored
(lines 114..117); and the no-ingredients WARNING issue is appended
after the call whenever the selected list is empty. -/
def validateIngredientsWithFDA (data : FdaIngredientsInput) (proc : SubprocessBehavior) :
    List String × PromiseOutcome FdaReturn :=
  let ing := ingredientsToValidate data
  let trace := ["validate_ingredients"]
  let callRes :=
    callFDAMCPTool ("validate_ingredients")
      (jsObjOf [("ingredients", jsArrOf (ing.map (fun s => .str s)))]) proc
  match callRes with
  | .pending => (trace, .pending)
  | .rejected _ =>
    let issues := [serviceUnavailableFinding] ++
      (if ing.length = 0 then [noIngredientsFinding] else [])
    (trace, .resolved { success := true, ingredientsValidated := ing.length, issues := issues })
  | .resolved v =>
    let pr :=
      match mcpResultContentFirst v with
      | some c0 =>
        match jsGet c0 "text" with
        | some (.str s) =>
          match jsonParse s with
          | some parsed => processFDAResult parsed
          | none => ([], [])
        | _ => ([], [])
      | none => ([], [])
    let issues := pr.1 ++ (if ing.length = 0 then [noIngredientsFinding] else [])
    (trace, .resolved
      { success := true, ingredientsValidated := ing.length
        issues := issues, recommendations := pr.2 })

/-! ## Nutritional-claims activity (validateNutritionalClaimsWithFDA,
lines 268..364of the FDA activity module) -/

/-- The payload of the claims-validation activity.  nutritionalInfo is
restricted to string-valued entries, the shape the structured label
record carries. -/
structure FdaClaimsInput where
  claims : List String := []
  nutritionalInfo : List (String × String) := []
deriving DecidableEq

/-- The record validateNutritionalClaimsWithFDA resolves with (the
fdaClaimsValidation part of the returned object; wall-clock fields
omitted).  On the error path the source leaves claimsValidated and
recommendations absent; the model keeps their defaults there. -/
structure FdaClaimsReturn where
  success : Bool
  error : Option String := none
  claimsValidated : Nat := 0
  issues : List Finding := []
  recommendations : List Finding := []
deriving DecidableEq

def noClaimsFinding : Finding :=
  { type := "FDA_NO_CLAIMS", severity := "INFO"
    message := "No nutritional claims detected - no FDA validation required"
    source := "FDA Claims Validation", sourceTag := "FDA-CLAIMS" }

/-- The Finding pushed for one claim validation entry (lines 308..330):
an invalid claim becomes a COMPLIANCE issue, a valid one an INFO
recommendation; the source falls back to the guidelines label when the
entry carries no truthy fdaSource. -/
def claimFindingOf (valid : Bool) (v : JsValue) : Finding :=
  { type := if valid then "FDA_VALID_CLAIM" else "FDA_INVALID_CLAIM"
    severity := if valid then "INFO" else "COMPLIANCE"
    claim := jsGet v "claim"
    message := jsDisplay (jsGet v "reason")
    source :=
      if jsTruthy (jsGet v "fdaSource") then jsDisplay (jsGet v "fdaSource")
      else "FDA Nutrition Labeling Guidelines"
    sourceTag := "FDA-CLAIMS" }

/-- The issue/recommendation lists built from the claimValidations
property of the parsed claims payload (the optional-chained forEach of
line 308). -/
def processClaimValidations (cvs : Option JsValue) : List Finding × List Finding :=
  match cvs with
  | some (.arr items) =>
    ( (items.toList.filter (fun v => ¬ jsTruthy (jsGet v "isValid"))).map (claimFindingOf false)
    , (items.toList.filter (fun v => jsTruthy (jsGet v "isValid"))).map (claimFindingOf true) )
  | _ => ([], [])

/-- The text of content[0] of the claims tool response, when the
optional chain claimsValidation.content?.[0]?.text yields a truthy
value.  Note the chain starts at the top-level content property of the
settled value, not at result.content as the ingredient activity (and
the JSON-RPC envelope) have it. -/
def claimsContentText (v : JsValue) : Option String :=
  match jsGet v "content" with
  | some (.arr (.cons c0 _)) =>
    match jsGet c0 "text" with
    | some (.str s) => if s ≠ "" then some s else none
    | _ => none
  | _ => none

/-- Model of validateNutritionalClaimsWithFDA.  An empty claims list
short-circuits before any subprocess call with the INFO no-claims
recommendation.  Otherwise the tool is called; a rejection, or a
JSON.parse throw on the content text, is caught by the outer catch and
returned as the ERROR-shaped record; a settled value without a truthy
content[0].text contributes no findings at all. -/
def validateNutritionalClaimsWithFDA (data : FdaClaimsInput) (proc : SubprocessBehavior) :
    List String × PromiseOutcome FdaClaimsReturn :=
  if data.claims.isEmpty then
    ([], .resolved
      { success := true, claimsValidated := 0, issues := []
        recommendations := [noClaimsFinding] })
  else
    let trace := ["validate_nutritional_claims"]
    let args := jsObjOf
      [ ("claims", jsArrOf (data.claims.map (fun c => .str c)))
      , ("nutritionalData", jsObjOf (data.nutritionalInfo.map (fun p => (p.1, .str p.2)))) ]
    match callFDAMCPTool ("validate_nutritional_claims") args proc with
    | .pending => (trace, .pending)
    | .rejected m =>
      (trace, .resolved
        { success := false, error := some m
          issues := [{ type := "FDA_CLAIMS_ERROR", severity := "ERROR"
                       message := "FDA claims validation failed: " ++ m
                       source := "FDA MCP Server", sourceTag := "FDA-ERROR" }] })
    | .resolved v =>
      match claimsContentText v with
      | some s =>
        match jsonParse s with
        | some vd =>
          let pr := processClaimValidations (jsGet vd "claimValidations")
          (trace, .resolved
            { success := true, claimsValidated := data.claims.length
              issues := pr.1, recommendations := pr.2 })
        | none =>
          (trace, .resolved
            { success := false, error := some jsonSyntaxErrorMsg
              issues := [{ type := "FDA_CLAIMS_ERROR", severity := "ERROR"
                           message := "FDA claims validation failed: " ++ jsonSyntaxErrorMsg
                           source := "FDA MCP Server", sourceTag := "FDA-ERROR" }] })
      | none =>
        (trace, .resolved
          { success := true, claimsValidated := data.claims.length
            issues := [], recommendations := [] })

/-! ## FDA MCP server (src/unnamed/part_002): nutritional-claim rules -/

/-- The fixed FDA claim thresholds of validateSingleClaim (lines
363..370 of the server), in source order. -/
def fdaThresholds : List (String × List (String × ℚ)) :=
  [ ("low fat", [("totalFat", 3)])
  , ("fat free", [("totalFat", 1/2)])
  , ("low sodium", [("sodium", 140)])
  , ("sodium free", [("sodium", 5)])
  , ("high fiber", [("dietaryFiber", 5)])
  , ("good source of fiber", [("dietaryFiber", 5/2)]) ]

/-- The character filter of replace(/[^\d.]/g, ''). -/
def stripNonNumeric (s : String) : String :=
  String.mk (s.data.filter (fun c => c.isDigit ∨ c = '.'))

/-- parseFloat on a string of digits and dots: the longest numeric
prefix; none models NaN (no digits before a second dot or at all). -/
def parseFloatPrefix (s : List Char) : Option ℚ :=
  let (ip, s1) := takeDigits s
  let (fp, _) :=
    match s1 with
    | c :: t => if c = '.' then takeDigits t else ([], s1)
    | [] => ([], s1)
  if ip.isEmpty ∧ fp.isEmpty then none
  else some ((digitsToNat (ip ++ fp) : ℚ) / ((10 : ℚ) ^ fp.length))

/-- The numeric value checkNutritionalThreshold reads for one nutrient:
the raw string (when the key is present) stripped to digits and dots,
with the empty result replaced by the string zero, then parseFloat.
none models NaN. -/
def actualNutrientValue (nutritionalData : List (String × String)) (nutrient : String) : Option ℚ :=
  let cleaned :=
    match (nutritionalData.find? (fun p => p.1 = nutrient)).map (fun p => p.2) with
    | some s => stripNonNumeric s
    | none => ""
  let cleaned := if cleaned = "" then "0" else cleaned
  parseFloatPrefix cleaned.data

/-- A JavaScript comparison a > b where a may be NaN (none): false. -/
def jsGtOpt (a : Option ℚ) (b : ℚ) : Bool :=
  match a with
  | some q => q > b
  | none => false

/-- Model of checkNutritionalThreshold (lines 395..403): every listed
nutrient must not exceed its maximum; a missing or non-numeric value
parses to zero or NaN and therefore never exceeds. -/
def checkNutritionalThreshold (nutritionalData : List (String × String))
    (thresholds : List (String × ℚ)) : Bool :=
  thresholds.all (fun t => ¬ jsGtOpt (actualNutrientValue nutritionalData t.1) t.2)

/-- The validation record of one claim. -/
structure ClaimValidation where
  claim : String
  isValid : Bool
  reason : String
  fdaSource : String
deriving DecidableEq

/-- Model of validateSingleClaim (lines 361..393): the first threshold
entry whose claim type occurs in the lower-cased claim decides the
verdict; a claim matching no entry is not recognized. -/
def validateSingleClaim (claim : String) (nutritionalData : List (String × String)) :
    ClaimValidation :=
  let normalizedClaim := jsToLowerCase claim
  match fdaThresholds.find? (fun p => jsIncludes normalizedClaim p.1) with
  | some ct =>
    let ok := checkNutritionalThreshold nutritionalData ct.2
    { claim := claim, isValid := ok
      reason :=
        if ok then "Claim meets FDA requirements for \"" ++ ct.1 ++ "\""
        else "Claim does not meet FDA requirements for \"" ++ ct.1 ++ "\""
      fdaSource := "FDA Nutrition Labeling Guidelines" }
  | none =>
    { claim := claim, isValid := false
      reason := "Claim not recognized or cannot be validated"
      fdaSource := "FDA Nutrition Labeling Guidelines" }

def claimValidationToJs (cv : ClaimValidation) : JsValue :=
  jsObjOf
    [ ("claim", .str cv.claim), ("isValid", .bool cv.isValid)
    , ("reason", .str cv.reason), ("fdaSource", .str cv.fdaSource) ]

/-- Model of the server-side validateNutritionalClaims (lines 339..359):
the tool result object whose single content item carries the
serialized claim validations.  The wall-clock validatedAt property and
the pretty-printing whitespace of the serialization are omitted. -/
def validateNutritionalClaims (claims : List String)
    (nutritionalData : List (String × String)) : JsValue :=
  jsObjOf
    [ ("content", jsArrOf
        [ jsObjOf
            [ ("type", .str "text")
            , ("text", .str (jsonStringify (jsObjOf
                [ ("claimValidations", jsArrOf
                    (claims.map (fun c => claimValidationToJs (validateSingleClaim c nutritionalData))))
                , ("source", .str ("FDA Nutritional Claims Validation")) ]))) ] ]) ]

/-- The JSON-RPC response envelope the MCP stdio transport writes for a
tool result: the payload is nested under the result property (this is
the shape the spec documents and the shape validateIngredientsWithFDA
unwraps via result.content). -/
def mcpEnvelope (toolResult : JsValue) : JsValue :=
  jsObjOf [("jsonrpc", .str "2.0"), ("id", .num 1), ("result", toolResult)]

/-! ## Workflow (src/temporal/workflows/labelValidation.js) and the
compliance activity (src/temporal/clients/connection.js) -/

/-- The result of the mock performComplianceCheck (connection.js lines
288..300): always compliant. -/
structure ComplianceResult where
  compliant : Bool
  violations : List String := []
  warnings : List String := []
  score : ℚ := 95
deriving DecidableEq

def performComplianceCheck (_data : JsValue) : ComplianceResult :=
  { compliant := true }

/-- The final workflow object (status and the processingSteps flags;
identification and wall-clock fields omitted). -/
structure WorkflowResult where
  status : String
  ocrCompleted : Bool
  qualityAssessed : Bool
  aiValidated : Bool
  complianceChecked : Bool
deriving DecidableEq

/-- Model of labelValidationWorkflow (lines 12..71): the five stages in
sequence, parameterised by the outcomes of the external calls.  The
catch of the workflow re-throws (line 69), so any activity throw —
in particular the assessOCRQuality throw on a failure-shaped OCR
result — escapes the workflow; the model propagates it as the error
case.  preprocessImageForOCR returns its payload unchanged apart from a
preprocessed flag and never throws. -/
def labelValidationWorkflow (labelData : LabelData) (engine : Except String TessData)
    (primary : Except String String) (openaiConfigured : Bool)
    (secondary : Except String String) : Except String WorkflowResult :=
  let ocrResult := performOCR labelData engine
  match assessOCRQuality ocrResult with
  | .error e => .error e
  | .ok q =>
    let v := performAIValidation
      { ocrText := ocrResult.text, ocrQualityOverall := q.overall
        ocrQualityConfidence := q.confidence } primary openaiConfigured secondary
    let c := performComplianceCheck (jsObjOf [])
    .ok
      { status := if c.compliant then "APPROVED" else "REQUIRES_REVIEW"
        ocrCompleted := (match ocrResult.text with | some t => t ≠ "" | none => false)
        qualityAssessed := q.overall ≠ ""
        aiValidated := jsTruthy (jsGet v ("isValid"))
        complianceChecked := c.compliant }

/-! ## Observation helpers used by the statements below -/

def PromiseOutcome.isResolved {α : Type} : PromiseOutcome α → Bool
  | .resolved _ => true
  | _ => false

/-- The issues of a resolved ingredient-validation outcome (empty when
the promise did not resolve). -/
def fdaIssuesOf (o : PromiseOutcome FdaReturn) : List Finding :=
  match o with
  | .resolved r => r.issues
  | _ => []

/-- The assessment of a non-throwing assessOCRQuality run (an empty
assessment when the run threw). -/
def okAssessment (e : Except String QualityAssessment) : QualityAssessment :=
  match e with
  | .ok a => a
  | .error _ => { overall := "", confidence := none, issues := [], recommendations := [] }

/-! ## Claim C1 -/

/-- C1 counterexample: the claim states that no stage ever raises, for
every input including failure-shaped OCR results.  It is false:
assessOCRQuality re-throws on a failure-shaped OCR result (its text
property is undefined, so reading its length throws, and the catch
re-throws), and consequently a workflow run whose OCR engine fails
raises from the quality-assessment step instead of producing a typed
result. -/
theorem C1_counterexample :
    assessOCRQuality { success := some false, error := some ("OCR processing failed") } =
      .error ("TypeError: Cannot read properties of undefined (reading length)") ∧
    labelValidationWorkflow { imageUrl := some ("https://example.com/x.jpg") }
        (.error ("OCR processing failed")) (.ok ("ok")) false (.ok ("ok")) =
      .error ("TypeError: Cannot read properties of undefined (reading length)") := by
  constructor <;> rfl

/-- C1 amended: performOCR, performAIValidation and
validateIngredientsWithFDA do return typed results instead of
propagating exceptions (performOCR returns the failure-shaped record on
any engine failure, performAIValidation always returns an object,
validateIngredientsWithFDA never rejects); but assessOCRQuality throws
a TypeError on every failure-shaped OCR result (text undefined), and
labelValidationWorkflow re-throws it, so a run with a failing OCR
engine raises instead of yielding a verdict. -/
theorem C1_amended :
    (∀ (ld : LabelData) (e : String),
        (performOCR ld (.error e)).success = some false ∧
        (performOCR ld (.error e)).text = none ∧
        (performOCR ld (.error e)).error.isSome = true) ∧
    (∀ (inp : AIInput) (p : Except String String) (cfg : Bool) (s : Except String String),
        ∃ kvs, performAIValidation inp p cfg s = .obj kvs) ∧
    (∀ (d : FdaIngredientsInput) (proc : SubprocessBehavior) (m : String),
        (validateIngredientsWithFDA d proc).2 ≠ .rejected m) ∧
    (∀ r : OCRResultJS, r.text = none →
        assessOCRQuality r =
          .error ("TypeError: Cannot read properties of undefined (reading length)")) ∧
    (∀ (ld : LabelData) (e : String) (p : Except String String) (cfg : Bool)
        (s : Except String String),
        labelValidationWorkflow ld (.error e) p cfg s =
          .error ("TypeError: Cannot read properties of undefined (reading length)")) := by
  refine ⟨?_, ?_, ?_, ?_, ?_⟩
  · intro ld e
    simp only [performOCR]
    split <;> simp
  · intro inp p cfg s
    exact ⟨_, rfl⟩
  · intro d proc m
    simp only [validateIngredientsWithFDA]
    split <;> simp
  · intro r hr
    simp [assessOCRQuality, hr]
  · intro ld e p cfg s
    have htext : (performOCR ld (.error e)).text = none := by
      simp only [performOCR]; split <;> rfl
    simp [labelValidationWorkflow, assessOCRQuality, htext]

/-- C1 amended witness: the assessOCRQuality clause applied to a
concrete failure-shaped OCR result. -/
theorem C1_amended_witness :
    assessOCRQuality { success := some false } =
      .error ("TypeError: Cannot read properties of undefined (reading length)") :=
  C1_amended.2.2.2.1 { success := some false } rfl

/-! ## Claim C2 -/

/-- C2 counterexample: the claim states that a regulatory-check call
whose subprocess never responds is hard-killed after a fixed 5-second
timeout and completes with a WARNING Finding.  It is false: the promise
executor of callFDAMCPTool registers no timer at all and settles only
on the close event, so a subprocess that never closes leaves the call
pending forever — it never completes, with or without a Finding. -/
theorem C2_counterexample :
    callFDAMCPTool ("validate_ingredients") (jsObjOf [("ingredients", jsArrOf [])])
      SubprocessBehavior.neverCloses = .pending := rfl

/-- C2 amended: there is no timeout: for every tool and argument a
subprocess that never closes leaves the call pending indefinitely.
What does hold is the failure half of the claim: when the subprocess
fails (any non-zero exit code), the call rejects and
validateIngredientsWithFDA converts the rejection into the
service-temporarily-unavailable Finding of severity WARNING instead of
crashing. -/
theorem C2_amended :
    (∀ (tool : String) (args : JsValue),
        callFDAMCPTool tool args .neverCloses = .pending) ∧
    (∀ (d : FdaIngredientsInput) (code : Int) (out err : String), code ≠ 0 →
        (validateIngredientsWithFDA d (.closes code out err)).2.isResolved = true ∧
        serviceUnavailableFinding ∈ fdaIssuesOf (validateIngredientsWithFDA d (.closes code out err)).2 ∧
        serviceUnavailableFinding.severity = "WARNING") := by
  constructor
  · intro tool args
    rfl
  · intro d code out err hcode
    simp only [validateIngredientsWithFDA, callFDAMCPTool, if_pos hcode]
    refine ⟨rfl, ?_, rfl⟩
    simp [fdaIssuesOf]

/-- C2 amended witness: the failure half applied at exit code 1. -/
theorem C2_amended_witness :
    (validateIngredientsWithFDA { ingredients := ["water"] } (.closes 1 ("") ("spawn failed"))).2.isResolved = true ∧
    serviceUnavailableFinding ∈ fdaIssuesOf (validateIngredientsWithFDA { ingredients := ["water"] } (.closes 1 ("") ("spawn failed"))).2 ∧
    serviceUnavailableFinding.severity = "WARNING" :=
  C2_amended.2 { ingredients := ["water"] } 1 ("") ("spawn failed") (by decide)

/-! ## Claim C3 -/

/-- C3 counterexample: the claim states that with an empty ingredient
list the external regulatory capability is not invoked and an
INFO-severity no-ingredients Finding is reported.  It is false on both
points: the activity invokes the validate_ingredients tool
unconditionally (the invocation trace is non-empty), and the
no-ingredients Finding it appends has severity WARNING, not INFO. -/
theorem C3_counterexample :
    (validateIngredientsWithFDA { ingredients := [] } (.closes 0 ("") (""))).1 =
      ["validate_ingredients"] ∧
    noIngredientsFinding ∈
      fdaIssuesOf (validateIngredientsWithFDA { ingredients := [] } (.closes 0 ("") (""))).2 ∧
    noIngredientsFinding.severity = "WARNING" := by
  refine ⟨rfl, ?_, rfl⟩
  decide

/-- C3 amended: whenever the effective ingredient list (the direct list,
or the structured-extraction list when the direct one is empty) is
empty, the activity still invokes the validate_ingredients tool, and —
unless the subprocess never closes — resolves with the
FDA_NO_INGREDIENTS Finding of severity WARNING among its issues. -/
theorem C3_amended :
    ∀ (d : FdaIngredientsInput) (proc : SubprocessBehavior),
      ingredientsToValidate d = [] →
      (validateIngredientsWithFDA d proc).1 = ["validate_ingredients"] ∧
      ((validateIngredientsWithFDA d proc).2 = .pending ∨
        noIngredientsFinding ∈ fdaIssuesOf (validateIngredientsWithFDA d proc).2) ∧
      noIngredientsFinding.severity = "WARNING" := by
  intro d proc hempty
  have hlen : (ingredientsToValidate d).length = 0 := by rw [hempty]; rfl
  simp only [validateIngredientsWithFDA, hlen]
  refine ⟨?_, ?_, rfl⟩
  · split <;> rfl
  · split
    · exact Or.inl rfl
    · exact Or.inr (by simp [fdaIssuesOf])
    · exact Or.inr (by simp [fdaIssuesOf])

/-- C3 amended witness: applied to the payload with both ingredient
sources empty and a subprocess that closes cleanly with empty output. -/
theorem C3_amended_witness :
    (validateIngredientsWithFDA { ingredients := [] } (.closes 0 ("") (""))).1 = ["validate_ingredients"] ∧
    ((validateIngredientsWithFDA { ingredients := [] } (.closes 0 ("") (""))).2 = .pending ∨
      noIngredientsFinding ∈ fdaIssuesOf (validateIngredientsWithFDA { ingredients := [] } (.closes 0 ("") (""))).2) ∧
    noIngredientsFinding.severity = "WARNING" :=
  C3_amended { ingredients := [] } (.closes 0 ("") ("")) rfl

/-! ## Claim C4 -/

/-- C4 counterexample: the claim states that when the primary provider
throws and the secondary also fails, the returned record has
aiProvider equal to the string none.  It is false: performAIValidation
never writes an aiProvider property at all, so reading it on the
both-providers-failed result yields undefined; the provider identity
lives in the aiModel property instead, which retains the last attempted
model name. -/
theorem C4_counterexample :
    jsGet (performAIValidation
        { ocrText := some ("OCR TEXT"), ocrQualityOverall := "good"
          ocrQualityConfidence := some (9/10) }
        (.error ("Claude API error")) true (.error ("OpenAI API error"))) ("aiProvider") = none ∧
    jsGet (performAIValidation
        { ocrText := some ("OCR TEXT"), ocrQualityOverall := "good"
          ocrQualityConfidence := some (9/10) }
        (.error ("Claude API error")) true (.error ("OpenAI API error"))) ("aiModel") =
      some (.str ("gpt-4o-mini")) := by
  constructor <;> rfl

/-- C4 amended: when the primary provider throws and the secondary
fails, the record carries confidence 0.3; when the secondary is
unconfigured, confidence 0.4 — both inside the claimed 0.3 to 0.4
range — and in both cases a non-empty errors map holds the primary
message together with the secondary message (or the Not-configured
marker); but the record has no aiProvider property (reading it yields
undefined): the provider identity is only visible in aiModel, which
keeps the last attempted model name. -/
theorem C4_amended :
    ∀ (inp : AIInput) (e1 e2 : String),
      (jsGet (performAIValidation inp (.error e1) true (.error e2)) ("errors") =
          some (jsObjOf [("claude", .str e1), ("openai", .str e2)]) ∧
        jsGet (performAIValidation inp (.error e1) true (.error e2)) ("confidence") =
          some (.num (3/10)) ∧
        jsGet (performAIValidation inp (.error e1) true (.error e2)) ("aiModel") =
          some (.str ("gpt-4o-mini")) ∧
        jsGet (performAIValidation inp (.error e1) true (.error e2)) ("aiProvider") = none) ∧
      (∀ s2 : Except String String,
        jsGet (performAIValidation inp (.error e1) false s2) ("errors") =
            some (jsObjOf [("claude", .str e1), ("openai", .str ("Not configured"))]) ∧
          jsGet (performAIValidation inp (.error e1) false s2) ("confidence") =
            some (.num (4/10)) ∧
          jsGet (performAIValidation inp (.error e1) false s2) ("aiProvider") = none) ∧
      ((3 : ℚ)/10 ≤ 3/10 ∧ (3 : ℚ)/10 ≤ 4/10 ∧ (3 : ℚ)/10 ≤ 4/10 ∧ (4 : ℚ)/10 ≤ 4/10) := by
  intro inp e1 e2
  exact ⟨⟨rfl, rfl, rfl, rfl⟩, fun s2 => ⟨rfl, rfl, rfl⟩, by norm_num⟩

/-! ## Claim C5 -/

/-- C5 counterexample: the claim states that a response parsing as JSON
but lacking the mandatory keys is treated exactly as a parse failure,
returning the fallback stub.  It is false: parseAIResponse returns the
parsed object unchanged — here an object with a single foo key and
none of isValid, confidence, correctedText or extractedInformation —
instead of the stub (in particular its isValid is undefined, not
false). -/
theorem C5_counterexample :
    parseAIResponse ("\x7b\"foo\": 1\x7d") (some ("THE OCR TEXT")) = jsObjOf [("foo", .num 1)] ∧
    jsGet (parseAIResponse ("\x7b\"foo\": 1\x7d") (some ("THE OCR TEXT"))) ("isValid") = none ∧
    jsGet (parseAIResponse ("\x7b\"foo\": 1\x7d") (some ("THE OCR TEXT"))) ("correctedText") = none := by
  refine ⟨?_, ?_, ?_⟩ <;> with_unfolding_all rfl

/-- C5 amended: parseAIResponse performs no required-field validation: a
response whose extracted JSON parses is returned as is, whatever keys it
lacks (for every fallback text); only an actual JSON parse failure
produces the fallback stub, which does carry isValid false, confidence
0.4 and correctedText equal to the input OCR text. -/
theorem C5_amended :
    (∀ fb : Option String,
        parseAIResponse ("\x7b\"foo\": 1\x7d") fb = jsObjOf [("foo", .num 1)]) ∧
    (∀ fb : Option String,
        jsGet (parseAIResponse ("completely unparseable response") fb) ("isValid") =
          some (.bool false) ∧
        jsGet (parseAIResponse ("completely unparseable response") fb) ("confidence") =
          some (.num (4/10)) ∧
        jsGet (parseAIResponse ("completely unparseable response") fb) ("correctedText") =
          some (jsOfOptStr fb)) := by
  exact ⟨fun fb => by with_unfolding_all rfl, fun fb => ⟨by rfl, by rfl, by rfl⟩⟩

/-! ## Claim C6 -/

/-- C6: evaluation of the code at the failing input.  The claim (and
the repo test suite, ocr.test.js, which expects tier excellent at
confidence 0.92 with no low-confidence words) requires an excellent
tier; the implemented assessOCRQuality has no excellent tier at all —
confidence at or above 0.85 stays at the good default whatever the
low-confidence-word ratio. -/
theorem C6_code_eval :
    assessOCRQuality
      { text := some ("NUTRITION FACTS\nServing Size 1 cup (240ml)\nCalories 150")
        confidence := some (92/100), totalWords := some 8, lowConfidenceWords := some 0 } =
    .ok { overall := "good", confidence := some (92/100), issues := [], recommendations := [] } ∧
    "good" ≠ "excellent" := by
  constructor
  · with_unfolding_all rfl
  · decide

/-! ## Claim C7 -/

/-- C7 counterexample: the claim states that text shorter than 50
characters forces tier poor regardless of the confidence score.  It is
false: at confidence 0.9 a one-character text keeps tier good; only the
short-text issue is recorded. -/
theorem C7_counterexample :
    assessOCRQuality
      { text := some ("x"), confidence := some (9/10)
        totalWords := some 1, lowConfidenceWords := some 0 } =
    .ok { overall := "good", confidence := some (9/10)
          issues := ["Very short text extracted"]
          recommendations := ["Check if image contains readable text"] } := by
  with_unfolding_all rfl

/-- C7 amended: for every OCR result with a defined text shorter than
50 characters and a defined confidence, the issues do include the
short-text issue, but the tier is untouched by text length: it is poor
exactly when the confidence is below 0.7. -/
theorem C7_amended :
    ∀ (r : OCRResultJS) (t : String) (c : ℚ),
      r.text = some t → r.confidence = some c → t.length < 50 →
      ("Very short text extracted" ∈ (okAssessment (assessOCRQuality r)).issues ∧
        ((okAssessment (assessOCRQuality r)).overall = "poor" ↔ c < 7/10)) := by
  intro r t c ht hc hlen
  by_cases h1 : c < 7/10
  · simp [assessOCRQuality, ht, hc, okAssessment, jsLt, h1, hlen]
  · by_cases h2 : c < 85/100
    · simp [assessOCRQuality, ht, hc, okAssessment, jsLt, h1, h2, hlen]
    · simp [assessOCRQuality, ht, hc, okAssessment, jsLt, h1, h2, hlen]

/-- C7 amended witness: applied at a one-character text with
confidence 0.9. -/
theorem C7_amended_witness :
    "Very short text extracted" ∈
      (okAssessment (assessOCRQuality
        { text := some ("x"), confidence := some (9/10)
          totalWords := some 1, lowConfidenceWords := some 0 })).issues ∧
    ((okAssessment (assessOCRQuality
        { text := some ("x"), confidence := some (9/10)
          totalWords := some 1, lowConfidenceWords := some 0 })).overall = "poor" ↔
      (9 : ℚ)/10 < 7/10) :=
  C7_amended
    { text := some ("x"), confidence := some (9/10)
      totalWords := some 1, lowConfidenceWords := some 0 }
    ("x") ((9 : ℚ)/10) rfl rfl (by decide)

/-! ## Claim C8 -/

/-- C8: evaluation of the code at the failing input.  The claim (and
the repo test suite, ocr.test.js, which on an engine rejection expects
text equal to the empty string and confidence 0) requires the failure
result to carry those fields; the implemented catch path returns only
success false and the error message — text and confidence are absent
(undefined), not empty string and zero. -/
theorem C8_code_eval :
    performOCR
        { filename := some ("test-label.jpg")
          imageUrl := some ("https://example.com/test-image.jpg") }
        (.error ("OCR processing failed")) =
      { success := some false, error := some ("OCR processing failed") } ∧
    (performOCR
        { filename := some ("test-label.jpg")
          imageUrl := some ("https://example.com/test-image.jpg") }
        (.error ("OCR processing failed"))).text = none ∧
    (performOCR
        { filename := some ("test-label.jpg")
          imageUrl := some ("https://example.com/test-image.jpg") }
        (.error ("OCR processing failed"))).confidence = none := by
  refine ⟨?_, rfl, rfl⟩
  rfl

/-! ## Claim C9 -/

/-- C9 counterexample: the claim states that a sodium-free claim is
valid exactly when sodium is strictly below 5 mg per serving.  It is
false at exactly 5 mg: checkNutritionalThreshold fails a nutrient only
when it strictly exceeds its maximum, so sodium 5mg (which is not
strictly below 5) still validates. -/
theorem C9_counterexample :
    (validateSingleClaim ("sodium free") [("sodium", "5mg")]).isValid = true ∧
    ¬ ((5 : ℚ) < 5) := by
  constructor
  · with_unfolding_all rfl
  · norm_num

/-- C9 amended: the thresholds are applied uniformly as
no-strict-exceedance: a low-fat claim over string-valued nutritional
data is valid exactly when the parsed total fat is at most 3 g (so
totalFat 2 validates and totalFat 5 fails, with the reason naming the
FDA low-fat requirement), and a sodium-free claim is valid exactly when
the parsed sodium is at most 5 mg — not strictly below 5. -/
theorem C9_amended :
    (∀ (v : String) (q : ℚ),
        actualNutrientValue [("totalFat", v)] ("totalFat") = some q →
        ((validateSingleClaim ("low fat") [("totalFat", v)]).isValid = true ↔ q ≤ 3)) ∧
    (∀ (v : String) (q : ℚ),
        actualNutrientValue [("sodium", v)] ("sodium") = some q →
        ((validateSingleClaim ("sodium free") [("sodium", v)]).isValid = true ↔ q ≤ 5)) ∧
    (validateSingleClaim ("low fat") [("totalFat", "2")]).isValid = true ∧
    (validateSingleClaim ("low fat") [("totalFat", "5")]).isValid = false ∧
    (validateSingleClaim ("low fat") [("totalFat", "5")]).reason =
      "Claim does not meet FDA requirements for \"low fat\"" := by
  have hfindLowFat :
      fdaThresholds.find? (fun p => jsIncludes (jsToLowerCase ("low fat")) p.1) =
        some ("low fat", [("totalFat", 3)]) := by with_unfolding_all rfl
  have hfindSodiumFree :
      fdaThresholds.find? (fun p => jsIncludes (jsToLowerCase ("sodium free")) p.1) =
        some ("sodium free", [("sodium", 5)]) := by with_unfolding_all rfl
  refine ⟨?_, ?_, ?_, ?_, ?_⟩
  · intro v q h
    simp [validateSingleClaim, hfindLowFat, checkNutritionalThreshold, h, jsGtOpt, not_lt]
  · intro v q h
    simp [validateSingleClaim, hfindSodiumFree, checkNutritionalThreshold, h, jsGtOpt, not_lt]
  · with_unfolding_all rfl
  · with_unfolding_all rfl
  · with_unfolding_all rfl

/-- C9 amended witness: the low-fat clause applied at the value 2g,
which parses to 2 and is below the 3 g threshold. -/
theorem C9_amended_witness :
    (validateSingleClaim ("low fat") [("totalFat", "2g")]).isValid = true ↔ (2 : ℚ) ≤ 3 :=
  C9_amended.1 ("2g") 2 (by with_unfolding_all rfl)

/-! ## Claim C10 -/

set_option maxRecDepth 100000 in
/-- C10: evaluation of the code at the failing input.  An unrecognized
claim is indeed reported by the server as invalid with the
not-recognized reason, and the activity loop does turn an invalid claim
validation into a COMPLIANCE Finding; but with the subprocess answering
with the JSON-RPC envelope (payload nested under result.content, the
shape the spec documents and validateIngredientsWithFDA unwraps), the
claims activity reads content at the top level, finds nothing, and
resolves successfully with zero issues — the COMPLIANCE Finding is
never emitted. -/
theorem C10_code_eval :
    (validateSingleClaim ("made with real fruit") []).isValid = false ∧
    (validateSingleClaim ("made with real fruit") []).reason =
      "Claim not recognized or cannot be validated" ∧
    (validateNutritionalClaimsWithFDA { claims := ["made with real fruit"] }
        (.closes 0
          (jsonStringify (mcpEnvelope (validateNutritionalClaims ["made with real fruit"] [])))
          (""))).2 =
      .resolved { success := true, claimsValidated := 1, issues := [], recommendations := [] } ∧
    (processClaimValidations
        (some (jsArrOf [claimValidationToJs (validateSingleClaim ("made with real fruit") [])]))).1 =
      [claimFindingOf false (claimValidationToJs (validateSingleClaim ("made with real fruit") []))] ∧
    (claimFindingOf false
        (claimValidationToJs (validateSingleClaim ("made with real fruit") []))).severity =
      "COMPLIANCE" := by
  refine ⟨?_, ?_, ?_, ?_, ?_⟩
  · with_unfolding_all rfl
  · with_unfolding_all rfl
  · with_unfolding_all rfl
  · with_unfolding_all rfl
  · with_unfolding_all rfl
